import Mathlib

/-!
Shallow embedding of `src/server.js` (SEARCHER-KEYWORDS repository): an
Express HTTP facade over an external Telegram client.  Each HTTP handler
becomes a pure Lean function from the global server state, the request
fields and an *environment* (the outcomes of the external-client calls the
handler makes) to a result record carrying the HTTP status, the response
body fields, the new server state and a trace of which external calls were
made.

JS conventions modelled explicitly:
* an absent JSON field is `none`; JS falsiness of a string field is
  `none` or `some ""`; falsiness of a numeric field includes `0`;
* the global `phoneState` object maps a phone to either a string hash or
  `null` (the value actually stored by the sendCode handler), so the state
  field has type `String → Option (Option String)`:
  `none` = no entry, `some none` = `null` entry, `some (some h)` = hash.
-/

/-- JS truthiness of an optional string field (`undefined`, `null` and `""` are falsy). -/
def jsTruthyStr : Option String → Bool
  | none => false
  | some s => s != ""

/-- JS truthiness of an optional numeric field (`undefined`, `null` and `0` are falsy). -/
def jsTruthyInt : Option Int → Bool
  | none => false
  | some n => n != 0

/-- JS truthiness of a `phoneState[phone]` lookup: truthy iff an entry exists and is a non-empty string. -/
def jsTruthyEntry : Option (Option String) → Bool
  | some (some h) => h != ""
  | _ => false

/-- The base64 alphabet used by Node `Buffer.prototype.toString('base64')` (RFC 4648). -/
def base64Alphabet : List Char :=
  "ABCDEFGHIJKLMNOPQRSTUVWXYZabcdefghijklmnopqrstuvwxyz0123456789+/".toList

/-- The base64 digit for a 6-bit value. -/
def b64digit (n : Nat) : Char := base64Alphabet.getD n 'A'

/-- base64 encoding of a byte sequence, with `=` padding, exactly as
`Buffer.toString('base64')` renders it. -/
def base64Encode : List Nat → String
  | [] => ""
  | [a] =>
    String.mk [b64digit (a / 4), b64digit (a % 4 * 16)] ++ "=="
  | [a, b] =>
    String.mk [b64digit (a / 4), b64digit (a % 4 * 16 + b / 16), b64digit (b % 16 * 4)] ++ "="
  | a :: b :: c :: rest =>
    String.mk [b64digit (a / 4), b64digit (a % 4 * 16 + b / 16),
               b64digit (b % 16 * 4 + c / 64), b64digit (c % 64)] ++ base64Encode rest

/-- A connected external-client handle, identified by the arguments
`createClient` was called with (`new TelegramClient(new StringSession(existingSession), Number(apiId), apiHash, ...)`).
The outcome of the network `connect()` is supplied by each handler's environment. -/
structure Client where
  apiId : Int
  apiHash : Option String
  initSession : String
deriving DecidableEq, Repr

/-- `createClient(apiId, apiHash, existingSession)` from server.js, as the handle it
produces when `tg.connect()` succeeds. -/
def createClient (apiId : Int) (apiHash : Option String) (existingSession : String) : Client :=
  ⟨apiId, apiHash, existingSession⟩

/-- The pending QR-login attempt stored in the global `qrWaiter`
(the object returned by `tmpClient.qrLogin()`, with its token bytes). -/
structure QrObj where
  token : List Nat
deriving DecidableEq, Repr

/-- The process-wide mutable globals of server.js. -/
structure ServerState where
  client : Option Client
  sessionString : String
  storedApiId : Option Int
  storedApiHash : Option String
  phoneState : String → Option (Option String)
  qrWaiter : Option QrObj

/-- The globals at process start. -/
def initialState : ServerState :=
  ⟨none, "", none, none, fun _ => none, none⟩

/-! ## POST /auth/start -/

/-- Environment of one `/auth/start` call: the outcome of `tg.connect()`
inside `createClient` (`.error e` models a thrown exception rendered by `err.toString()`). -/
structure StartEnv where
  connect : Except String Unit

/-- Result of one `/auth/start` call. -/
structure StartResult where
  status : Nat
  ok : Bool
  error : Option String
  state : ServerState
  connectAttempted : Bool

/-- The `/auth/start` handler (server.js lines 42-55).  Credentials are stored
into `storedApiId` / `storedApiHash` *before* the connection attempt; on a
thrown connection the globals `client` and `sessionString` keep their values. -/
def runStart (st : ServerState) (apiId : Option Int) (apiHash : Option String)
    (env : StartEnv) : StartResult :=
  if !(jsTruthyInt apiId) || !(jsTruthyStr apiHash) then
    ⟨400, false, some "apiId & apiHash required", st, false⟩
  else
    let aid := apiId.getD 0
    let st1 := { st with storedApiId := some aid, storedApiHash := apiHash }
    match env.connect with
    | .error e => ⟨500, false, some e, st1, true⟩
    | .ok _ =>
        ⟨200, true, none, { st1 with client := some (createClient aid apiHash st.sessionString) }, true⟩

/-! ## POST /auth/sendCode -/

/-- The structure returned by the external code-request call, with the three
field names the handler inspects: `result.phoneCodeHash`,
`result.phone_code_hash`, and the TL tag `result._` (modelled as `tlTag`). -/
structure CodeResult where
  phoneCodeHash : Option String
  phone_code_hash : Option String
  tlTag : Option String
deriving DecidableEq, Repr

/-- The alias chain of server.js line 79:
`result.phoneCodeHash || result.phone_code_hash || (result._ ? result._ : null)`.
Returns `none` exactly when the JS expression evaluates to `null`
(all three fields falsy). -/
def resolveHash (r : CodeResult) : Option String :=
  if jsTruthyStr r.phoneCodeHash then r.phoneCodeHash
  else if jsTruthyStr r.phone_code_hash then r.phone_code_hash
  else if jsTruthyStr r.tlTag then r.tlTag
  else none

/-- Environment of one `/auth/sendCode` call: the outcome of
`client.sendCodeRequest(phone)` (or, when that method name is absent,
`client.sendCode(phone)` — both call shapes return the same external result). -/
structure SendCodeEnv where
  sendCodeResult : Except String CodeResult

/-- Result of one `/auth/sendCode` call. -/
structure SendCodeResult where
  status : Nat
  ok : Bool
  error : Option String
  state : ServerState
  externalCalled : Bool

/-- The `/auth/sendCode` handler (server.js lines 62-87).  Note that when no
alias carries the hash, the handler still stores `null` under the phone and
returns `{ok:true}` — there is no error path for a missing hash. -/
def runSendCode (st : ServerState) (phone : Option String) (env : SendCodeEnv) : SendCodeResult :=
  match st.client with
  | none => ⟨400, false, some "client not initialized (call /auth/start)", st, false⟩
  | some _ =>
    if !(jsTruthyStr phone) then ⟨400, false, some "phone required", st, false⟩
    else
      let p := phone.getD ""
      match env.sendCodeResult with
      | .error e => ⟨500, false, some e, st, true⟩
      | .ok r =>
          ⟨200, true, none,
           { st with phoneState := fun q => if q = p then some (resolveHash r) else st.phoneState q },
           true⟩

/-! ## POST /auth/verify -/

/-- Environment of one `/auth/verify` call: whether `client.signIn` is a
function, the outcomes of the object-shaped call
`client.signIn({phoneNumber, phoneCode, phoneCodeHash})` and of the
positional call `client.signIn(phone, code)`, and the value
`client.session.save()` returns after a successful sign-in. -/
structure VerifyEnv where
  hasSignIn : Bool
  objectSignIn : Except String Unit
  positionalSignIn : Except String Unit
  saveResult : String

/-- Result of one `/auth/verify` call, with a trace of the sign-in attempts:
`objectArgs` is `some (phoneNumber, phoneCode, phoneCodeHash)` when the
object-shaped call was made, `positionalArgs` is `some (phone, code)` when
the positional call was made. -/
structure VerifyResult where
  status : Nat
  ok : Bool
  error : Option String
  session : Option String
  state : ServerState
  objectArgs : Option (String × String × String)
  positionalArgs : Option (String × String)

/-- The `/auth/verify` handler (server.js lines 94-126).  The object-shaped
sign-in is attempted first; any failure of it triggers exactly one retry
with the positional shape, whose failure (if any) is what the outer catch
renders as the 500 error.  On success `sessionString` is set from
`client.session.save()` and echoed in the body. -/
def runVerify (st : ServerState) (phone code : Option String) (env : VerifyEnv) : VerifyResult :=
  match st.client with
  | none => ⟨400, false, some "client not initialized", none, st, none, none⟩
  | some _ =>
    if !(jsTruthyStr phone) || !(jsTruthyStr code) then
      ⟨400, false, some "phone & code required", none, st, none, none⟩
    else
      let p := phone.getD ""
      let c := code.getD ""
      if jsTruthyEntry (st.phoneState p) then
        let hash := ((st.phoneState p).getD none).getD ""
        if env.hasSignIn then
          match env.objectSignIn with
          | .ok _ =>
              let s := env.saveResult
              ⟨200, true, none, some s, { st with sessionString := s },
               some (p, c, hash), none⟩
          | .error _ =>
            match env.positionalSignIn with
            | .ok _ =>
                let s := env.saveResult
                ⟨200, true, none, some s, { st with sessionString := s },
                 some (p, c, hash), some (p, c)⟩
            | .error e2 =>
                ⟨500, false, some e2, none, st, some (p, c, hash), some (p, c)⟩
        else
          -- `typeof client.signIn !== 'function'`: the unguarded call
          -- `client.signIn(phone, code)` throws a TypeError, caught by the
          -- handler's outer catch as a 500.
          ⟨500, false, some "TypeError: client.signIn is not a function", none, st, none, none⟩
      else
        ⟨400, false, some "no phone_code_hash for this phone. Call /auth/sendCode first",
         none, st, none, none⟩

/-! ## POST /auth/qr/start -/

/-- Environment of one `/auth/qr/start` call: the outcome of the fresh
client's `connect()`, whether `tmpClient.qrLogin` is a function, and the
outcome of `tmpClient.qrLogin()` (on success, the token bytes). -/
structure QrStartEnv where
  connect : Except String Unit
  hasQrLogin : Bool
  qrLogin : Except String (List Nat)

/-- Result of one `/auth/qr/start` call. -/
structure QrStartResult where
  status : Nat
  ok : Bool
  error : Option String
  qrData : Option String
  state : ServerState

/-- The `/auth/qr/start` handler (server.js lines 134-163).  A missing
`qrLogin` capability yields the distinct 501 response; on success the
token is base64-rendered into a `data:text/plain;base64,` URL and the `qr`
object is stored in the global `qrWaiter`.  `storedApiId`/`storedApiHash`
and the main `client` are not touched. -/
def runQrStart (st : ServerState) (apiId : Option Int) (apiHash : Option String)
    (env : QrStartEnv) : QrStartResult :=
  if !(jsTruthyInt apiId) || !(jsTruthyStr apiHash) then
    ⟨400, false, some "apiId & apiHash required", none, st⟩
  else
    match env.connect with
    | .error e => ⟨500, false, some e, none, st⟩
    | .ok _ =>
      if !env.hasQrLogin then
        ⟨501, false, some "QR login not supported by library version on server", none, st⟩
      else
        match env.qrLogin with
        | .error e => ⟨500, false, some e, none, st⟩
        | .ok tok =>
            ⟨200, true, none, some ("data:text/plain;base64," ++ base64Encode tok),
             { st with qrWaiter := some ⟨tok⟩ }⟩

/-! ## GET /auth/qr/status -/

/-- Environment of one `/auth/qr/status` call.  `raceOutcome` is the result of
`Promise.race([qrWaiter.wait(), <1s timeout rejection>])`: `.ok` means the
wait handle confirmed within the bounded poll, `.error` is the timeout
rejection (`'pending'`) or any other rejection.  `connect` is the outcome of
`createClient(storedApiId, storedApiHash, '')` when the main client is
absent, and `saveResult` is what `client.session.save()` returns on the
*main* client.  `qrSession` is not read by the code; modelled from the
spec: the new SessionToken produced by the confirmed QR login (held by the
separate QR-login client, not by the main client). -/
structure QrStatusEnv where
  raceOutcome : Except String Unit
  connect : Except String Unit
  saveResult : String
  qrSession : String

/-- Result of one `/auth/qr/status` call. -/
structure QrStatusResult where
  status : Nat
  loggedIn : Option Bool
  error : Option String
  state : ServerState

/-- The `/auth/qr/status` handler (server.js lines 165-184).  With no pending
attempt it answers `loggedIn:false`.  Otherwise the bounded race decides:
on confirmation the main client is created from `storedApiId`/`storedApiHash`
with an empty session if absent (`Number(null) = 0` when `storedApiId` is
still null), `sessionString` is set from the *main* client's
`session.save()`, and `loggedIn:true` is returned; every rejection —
timeout, wait failure, or a failing `createClient` — lands in the inner
catch and yields `loggedIn:false`.  `qrWaiter` is never cleared here. -/
def runQrStatus (st : ServerState) (env : QrStatusEnv) : QrStatusResult :=
  match st.qrWaiter with
  | none => ⟨200, some false, none, st⟩
  | some _ =>
    match env.raceOutcome with
    | .error _ => ⟨200, some false, none, st⟩
    | .ok _ =>
      match st.client with
      | some _ => ⟨200, some true, none, { st with sessionString := env.saveResult }⟩
      | none =>
        match env.connect with
        | .error _ => ⟨200, some false, none, st⟩
        | .ok _ =>
            ⟨200, some true, none,
             { st with client := some (createClient (st.storedApiId.getD 0) st.storedApiHash ""),
                       sessionString := env.saveResult }⟩

/-- The `/auth/qr/cancel` handler (server.js lines 186-189): unconditionally
clears `qrWaiter` and answers `{ok:true}`. -/
def runQrCancel (st : ServerState) : Nat × Bool × ServerState :=
  (200, true, { st with qrWaiter := none })

/-! ## GET /channels -/

/-- One dialog entry as returned by `client.getDialogs({})`, with the fields
the handler reads: `isChannel`, the (big-integer) `id` and the `title`. -/
structure Dialog where
  isChannel : Bool
  id : Int
  title : String
deriving DecidableEq, Repr

/-- One entry of the `/channels` response body. -/
structure ChannelOut where
  id : String
  title : String
deriving DecidableEq, Repr

/-- Environment of one `/channels` call: the outcome of `client.getDialogs({})`. -/
structure ChannelsEnv where
  getDialogs : Except String (List Dialog)

/-- Result of one `/channels` call (the handler does not mutate the state). -/
structure ChannelsResult where
  status : Nat
  error : Option String
  channels : List ChannelOut
  dialogsCalled : Bool

/-- The `/channels` handler (server.js lines 195-208): filters the dialogs to
those with `isChannel` and maps each to `{id: d.id.toString(), title: d.title}`. -/
def runChannels (st : ServerState) (env : ChannelsEnv) : ChannelsResult :=
  match st.client with
  | none => ⟨400, some "not logged in", [], false⟩
  | some _ =>
    match env.getDialogs with
    | .error e => ⟨500, some e, [], true⟩
    | .ok dialogs =>
        ⟨200, none, (dialogs.filter (·.isChannel)).map (fun d => ⟨toString d.id, d.title⟩), true⟩

/-! ## POST /send -/

/-- One uploaded file as staged by multer: its temporary `path` and its
`originalname`. -/
structure UploadedFile where
  path : String
  originalname : String
deriving DecidableEq, Repr

/-- Environment of one `/send` call: for the i-th uploaded file, the outcome
of `client.sendFile(channelId, {file, caption})` and of the fallback
`client.sendMessage(channelId, {file, caption})`. -/
structure SendEnv where
  sendFile : Nat → Except String Unit
  sendMessage : Nat → Except String Unit

/-- Result of one `/send` call.  `deleted` lists the temporary paths passed to
`fs.unlinkSync`, in order; `fileAttempts` (resp. `msgAttempts`) lists the
indices of files for which `sendFile` (resp. the `sendMessage` fallback)
was invoked. -/
structure SendResult where
  status : Nat
  sent : Bool
  error : Option String
  deleted : List String
  fileAttempts : List Nat
  msgAttempts : List Nat

/-- The per-file loop of the `/send` handler (server.js lines 220-233),
processing the files from absolute index `i` on.  Each file's `finally`
block unlinks its temporary path whether or not the send succeeded; an
exception from the `sendMessage` fallback escapes the loop (it is only
caught by the handler's outer catch), so the remaining files are neither
sent nor deleted.  Returns the unlinked paths, the attempt traces and the
escaping error, if any. -/
def sendLoop (env : SendEnv) : Nat → List UploadedFile →
    List String × List Nat × List Nat × Option String
  | _, [] => ([], [], [], none)
  | i, f :: rest =>
    match env.sendFile i with
    | .ok _ =>
        let r := sendLoop env (i + 1) rest
        (f.path :: r.1, i :: r.2.1, r.2.2.1, r.2.2.2)
    | .error _ =>
      match env.sendMessage i with
      | .ok _ =>
          let r := sendLoop env (i + 1) rest
          (f.path :: r.1, i :: r.2.1, i :: r.2.2.1, r.2.2.2)
      | .error e2 => ([f.path], [i], [i], some e2)

/-- The `/send` handler (server.js lines 214-239).  The state is not mutated;
a loop-escaping error is rendered by the outer catch as a 500. -/
def runSend (st : ServerState) (channelId : Option String) (files : List UploadedFile)
    (env : SendEnv) : SendResult :=
  match st.client with
  | none => ⟨400, false, some "not logged in", [], [], []⟩
  | some _ =>
    if !(jsTruthyStr channelId) then ⟨400, false, some "channelId required", [], [], []⟩
    else
      match sendLoop env 0 files with
      | (d, fa, ma, none) => ⟨200, true, none, d, fa, ma⟩
      | (d, fa, ma, some e) => ⟨500, false, some e, d, fa, ma⟩

/-! ## Concrete states and environments used by the witnesses and counterexamples -/

/-- A state with a prior successful `/auth/start` (client initialized). -/
def startedState : ServerState :=
  { initialState with client := some (createClient 1 (some "hash1") ""),
                      storedApiId := some 1, storedApiHash := some "hash1" }

/-- `startedState` with an old recorded hash for phone `"+1000"` and an old session. -/
def richState : ServerState :=
  { startedState with sessionString := "OLDSESS",
                      phoneState := fun q => if q = "+1000" then some (some "OLDHASH") else none }

/-- A code-request result carrying the hash under none of the three aliases. -/
def noAliasResult : CodeResult := ⟨none, none, none⟩

/-- A code-request result carrying the hash under the `phone_code_hash` alias only. -/
def snakeAliasResult : CodeResult := ⟨none, some "NEWHASH", none⟩

/-- A state with a pending QR attempt and an initialized client holding an old session. -/
def qrPendingState : ServerState :=
  { richState with qrWaiter := some ⟨[77, 1, 2]⟩ }

/-- A QR-status environment where the wait handle confirms at once, the main
client saves `"MAINSAVE"`, and the QR login produced the session `"QRSESS"`. -/
def qrConfirmEnv : QrStatusEnv := ⟨.ok (), .ok (), "MAINSAVE", "QRSESS"⟩

/-- Three staged uploads for the `/send` witnesses. -/
def threeFiles : List UploadedFile :=
  [⟨"/tmp/u0", "a.txt"⟩, ⟨"/tmp/u1", "b.txt"⟩, ⟨"/tmp/u2", "c.txt"⟩]

/-- A `/send` environment where file 0 sends fine and file 1 fails in both
call shapes. -/
def abortAt1Env : SendEnv :=
  ⟨fun j => if j = 0 then .ok () else .error "sendFile failed",
   fun j => if j = 1 then .error "sendMessage failed" else .ok ()⟩

/-- Dialog list for the `/channels` witness: two channels around a non-channel. -/
def threeDialogs : List Dialog :=
  [⟨true, -1001234567890123, "Chan A"⟩, ⟨false, 42, "Dm B"⟩, ⟨true, 7, "Chan C"⟩]

/-! ## Theorems -/

/-- C10: a `/auth/start` call with both credentials present whose connection
attempt throws returns 500, yet `storedApiId`/`storedApiHash` have already
been overwritten with the request's values, while `client` and
`sessionString` keep their previous values: `start` mutates the credentials
before connecting and is not atomic on external failure. -/
theorem C10_start_not_atomic (st : ServerState) (apiId : Option Int) (apiHash : Option String)
    (env : StartEnv) (e : String)
    (hid : jsTruthyInt apiId = true) (hhash : jsTruthyStr apiHash = true)
    (hconn : env.connect = .error e) :
    (runStart st apiId apiHash env).status = 500 ∧
    (runStart st apiId apiHash env).error = some e ∧
    (runStart st apiId apiHash env).state.storedApiId = some (apiId.getD 0) ∧
    (runStart st apiId apiHash env).state.storedApiHash = apiHash ∧
    (runStart st apiId apiHash env).state.client = st.client ∧
    (runStart st apiId apiHash env).state.sessionString = st.sessionString := by
  simp [runStart, hid, hhash, hconn]

/-- Witness for C10 at a concrete state and request. -/
theorem C10_start_not_atomic_witness :
    (runStart richState (some 7) (some "h2") ⟨.error "connect failed"⟩).status = 500 ∧
    (runStart richState (some 7) (some "h2") ⟨.error "connect failed"⟩).error = some "connect failed" ∧
    (runStart richState (some 7) (some "h2") ⟨.error "connect failed"⟩).state.storedApiId =
      some ((some (7:Int)).getD 0) ∧
    (runStart richState (some 7) (some "h2") ⟨.error "connect failed"⟩).state.storedApiHash =
      some "h2" ∧
    (runStart richState (some 7) (some "h2") ⟨.error "connect failed"⟩).state.client =
      richState.client ∧
    (runStart richState (some 7) (some "h2") ⟨.error "connect failed"⟩).state.sessionString =
      richState.sessionString :=
  C10_start_not_atomic richState (some 7) (some "h2") ⟨.error "connect failed"⟩ "connect failed"
    (by decide) (by decide) rfl

/-- C6: every request to sendCode, verify, channels or send made while no
ClientHandle exists returns 400 and makes no call to the external client
(the traces of external calls are all empty). -/
theorem C6_requires_start (st : ServerState) (hc : st.client = none) :
    (∀ phone env, (runSendCode st phone env).status = 400 ∧
       (runSendCode st phone env).externalCalled = false) ∧
    (∀ phone code env, (runVerify st phone code env).status = 400 ∧
       (runVerify st phone code env).objectArgs = none ∧
       (runVerify st phone code env).positionalArgs = none) ∧
    (∀ env, (runChannels st env).status = 400 ∧ (runChannels st env).dialogsCalled = false) ∧
    (∀ cid files env, (runSend st cid files env).status = 400 ∧
       (runSend st cid files env).fileAttempts = [] ∧
       (runSend st cid files env).msgAttempts = []) := by
  refine ⟨fun phone env => ?_, fun phone code env => ?_, fun env => ?_, fun cid files env => ?_⟩ <;>
    simp [runSendCode, runVerify, runChannels, runSend, hc]

/-- Witness for C6 at the initial state. -/
theorem C6_requires_start_witness :
    (runSendCode initialState (some "+1000") ⟨.ok snakeAliasResult⟩).status = 400 ∧
    (runSendCode initialState (some "+1000") ⟨.ok snakeAliasResult⟩).externalCalled = false :=
  (C6_requires_start initialState rfl).1 (some "+1000") ⟨.ok snakeAliasResult⟩

/-- C7: a verify call for a phone with no recorded entry in `phoneState`
(with the client initialized and phone and code present) fails with the 400
precondition error and never invokes the external sign-in capability. -/
theorem C7_verify_requires_sendCode (st : ServerState) (c : Client)
    (phone code : Option String) (env : VerifyEnv)
    (hc : st.client = some c)
    (hp : jsTruthyStr phone = true) (hcode : jsTruthyStr code = true)
    (hnone : st.phoneState (phone.getD "") = none) :
    (runVerify st phone code env).status = 400 ∧
    (runVerify st phone code env).error =
      some "no phone_code_hash for this phone. Call /auth/sendCode first" ∧
    (runVerify st phone code env).objectArgs = none ∧
    (runVerify st phone code env).positionalArgs = none := by
  simp [runVerify, hc, hp, hcode, hnone, jsTruthyEntry]

/-- Witness for C7 at a concrete started state with an empty `phoneState`. -/
theorem C7_verify_requires_sendCode_witness :
    (runVerify startedState (some "+2000") (some "12345") ⟨true, .ok (), .ok (), "SESS"⟩).status = 400 ∧
    (runVerify startedState (some "+2000") (some "12345") ⟨true, .ok (), .ok (), "SESS"⟩).error =
      some "no phone_code_hash for this phone. Call /auth/sendCode first" ∧
    (runVerify startedState (some "+2000") (some "12345") ⟨true, .ok (), .ok (), "SESS"⟩).objectArgs = none ∧
    (runVerify startedState (some "+2000") (some "12345") ⟨true, .ok (), .ok (), "SESS"⟩).positionalArgs = none :=
  C7_verify_requires_sendCode startedState (createClient 1 (some "hash1") "")
    (some "+2000") (some "12345") ⟨true, .ok (), .ok (), "SESS"⟩ rfl (by decide) (by decide) rfl

/-- C4: a verify call passing its preconditions first attempts the
object-shaped sign-in with `{phoneNumber, phoneCode, phoneCodeHash}`; on any
failure of that attempt it retries exactly once with the positional shape
`(phone, code)`; if the second attempt also fails, the second attempt's
failure is the one rendered as the 500 error. -/
theorem C4_verify_fallback (st : ServerState) (c : Client)
    (phone code : Option String) (env : VerifyEnv)
    (hc : st.client = some c)
    (hp : jsTruthyStr phone = true) (hcode : jsTruthyStr code = true)
    (hhash : jsTruthyEntry (st.phoneState (phone.getD "")) = true)
    (hsig : env.hasSignIn = true) :
    (runVerify st phone code env).objectArgs =
      some (phone.getD "", code.getD "", ((st.phoneState (phone.getD "")).getD none).getD "") ∧
    (∀ u, env.objectSignIn = .ok u → (runVerify st phone code env).positionalArgs = none) ∧
    (∀ e1, env.objectSignIn = .error e1 →
       (runVerify st phone code env).positionalArgs = some (phone.getD "", code.getD "")) ∧
    (∀ e1 e2, env.objectSignIn = .error e1 → env.positionalSignIn = .error e2 →
       (runVerify st phone code env).status = 500 ∧
       (runVerify st phone code env).error = some e2) := by
  rcases env with ⟨hs, os, ps, sv⟩
  subst hsig
  rcases os with e1 | u <;> rcases ps with e2 | v <;>
    simp [runVerify, hc, hp, hcode, hhash]

/-- Witness for C4 at a concrete state where both sign-in shapes fail. -/
theorem C4_verify_fallback_witness :
    (runVerify richState (some "+1000") (some "12345")
       ⟨true, .error "PHONE_CODE_INVALID", .error "second failure", "SESS"⟩).objectArgs =
      some ((some "+1000").getD "", (some "12345").getD "",
            ((richState.phoneState ((some "+1000").getD "")).getD none).getD "") ∧
    (runVerify richState (some "+1000") (some "12345")
       ⟨true, .error "PHONE_CODE_INVALID", .error "second failure", "SESS"⟩).positionalArgs =
      some ((some "+1000").getD "", (some "12345").getD "") ∧
    (runVerify richState (some "+1000") (some "12345")
       ⟨true, .error "PHONE_CODE_INVALID", .error "second failure", "SESS"⟩).status = 500 ∧
    (runVerify richState (some "+1000") (some "12345")
       ⟨true, .error "PHONE_CODE_INVALID", .error "second failure", "SESS"⟩).error =
      some "second failure" := by
  have h := C4_verify_fallback richState (createClient 1 (some "hash1") "")
    (some "+1000") (some "12345")
    ⟨true, .error "PHONE_CODE_INVALID", .error "second failure", "SESS"⟩
    rfl (by decide) (by decide) (by decide) rfl
  exact ⟨h.1, h.2.2.1 "PHONE_CODE_INVALID" rfl,
         (h.2.2.2 "PHONE_CODE_INVALID" "second failure" rfl rfl).1,
         (h.2.2.2 "PHONE_CODE_INVALID" "second failure" rfl rfl).2⟩

/-- C5: a verify call that does not succeed (missing client, missing fields,
missing or null pending hash, a missing signIn method, or both sign-in
shapes failing) leaves `sessionString` unchanged; a verify call that
succeeds sets `sessionString` to the non-empty serialized session returned
by `client.session.save()` and returns that same value in the body.  The
non-emptiness hypothesis `hsave` is the external library's guarantee that a
saved session serializes to a non-empty string. -/
theorem C5_verify_session (st : ServerState) (phone code : Option String) (env : VerifyEnv)
    (hsave : env.saveResult ≠ "") :
    ((runVerify st phone code env).status ≠ 200 →
       (runVerify st phone code env).state.sessionString = st.sessionString) ∧
    ((runVerify st phone code env).status = 200 →
       (runVerify st phone code env).state.sessionString = env.saveResult ∧
       (runVerify st phone code env).state.sessionString ≠ "" ∧
       (runVerify st phone code env).session =
         some (runVerify st phone code env).state.sessionString) := by
  rcases env with ⟨hs, os, ps, sv⟩
  rcases hcl : st.client with _ | c <;>
    rcases hs <;> rcases os with e1 | u <;> rcases ps with e2 | v <;>
      simp [runVerify, hcl] <;>
        split <;> simp_all <;> split <;> simp_all

/-- Witness for C5 at a successful verify on a concrete state. -/
theorem C5_verify_session_witness :
    (runVerify richState (some "+1000") (some "12345")
       ⟨true, .ok (), .ok (), "NEWSESS"⟩).state.sessionString = "NEWSESS" ∧
    (runVerify richState (some "+1000") (some "12345")
       ⟨true, .ok (), .ok (), "NEWSESS"⟩).state.sessionString ≠ "" ∧
    (runVerify richState (some "+1000") (some "12345")
       ⟨true, .ok (), .ok (), "NEWSESS"⟩).session =
      some (runVerify richState (some "+1000") (some "12345")
       ⟨true, .ok (), .ok (), "NEWSESS"⟩).state.sessionString :=
  (C5_verify_session richState (some "+1000") (some "12345")
    ⟨true, .ok (), .ok (), "NEWSESS"⟩ (by decide)).2 (by decide)

/-- C1 counterexample: with an initialized client and a non-empty phone,
when the external code-request result carries the hash under none of the
accepted aliases, the sendCode call does NOT fail: it returns 200 with
`{ok:true}` (no UpstreamContractError exists in the code) and silently
records a `null` entry for the phone. -/
theorem C1_counterexample :
    (runSendCode startedState (some "+1000") ⟨.ok noAliasResult⟩).status = 200 ∧
    (runSendCode startedState (some "+1000") ⟨.ok noAliasResult⟩).ok = true ∧
    (runSendCode startedState (some "+1000") ⟨.ok noAliasResult⟩).error = none ∧
    (runSendCode startedState (some "+1000") ⟨.ok noAliasResult⟩).state.phoneState "+1000" =
      some none := by
  decide

/-- C1 (amended): with an initialized client and a non-empty phone, a
sendCode call whose external code-request succeeds always returns 200 with
`{ok:true}`; the value stored under the phone is the alias-chain resolution
of the result (overwriting any prior entry, other phones untouched).  When
no alias is present this stored value is `null` — the call does not fail
with UpstreamContractError, but the entry is unusable: a subsequent verify
for this phone fails its precondition with 400 and never attempts sign-in. -/
theorem C1_sendCode_alias (st : ServerState) (c : Client) (phone : Option String)
    (r : CodeResult) (env : SendCodeEnv)
    (hc : st.client = some c) (hp : jsTruthyStr phone = true)
    (henv : env.sendCodeResult = .ok r) :
    (runSendCode st phone env).status = 200 ∧
    (runSendCode st phone env).ok = true ∧
    (runSendCode st phone env).state.phoneState (phone.getD "") = some (resolveHash r) ∧
    (∀ q, q ≠ phone.getD "" → (runSendCode st phone env).state.phoneState q = st.phoneState q) ∧
    (resolveHash r = none →
       ∀ code env2, (runVerify (runSendCode st phone env).state phone code env2).status = 400 ∧
         (runVerify (runSendCode st phone env).state phone code env2).objectArgs = none ∧
         (runVerify (runSendCode st phone env).state phone code env2).positionalArgs = none) := by
  refine ⟨?_, ?_, ?_, ?_, ?_⟩ <;>
    simp [runSendCode, hc, hp, henv]
  · intro q hq
    simp [hq]
  · intro hr code env2
    rcases hcode : jsTruthyStr code with _ | _ <;>
      simp [runVerify, runSendCode, hc, hp, henv, hcode, jsTruthyEntry, hr]

/-- Witness for the amended C1: an alias-present call overwrites the prior
hash; instantiated at the `phone_code_hash` alias. -/
theorem C1_sendCode_alias_witness :
    (runSendCode richState (some "+1000") ⟨.ok snakeAliasResult⟩).status = 200 ∧
    (runSendCode richState (some "+1000") ⟨.ok snakeAliasResult⟩).state.phoneState
      ((some "+1000").getD "") = some (resolveHash snakeAliasResult) :=
  ⟨(C1_sendCode_alias richState (createClient 1 (some "hash1") "") (some "+1000")
      snakeAliasResult ⟨.ok snakeAliasResult⟩ rfl (by decide) rfl).1,
   (C1_sendCode_alias richState (createClient 1 (some "hash1") "") (some "+1000")
      snakeAliasResult ⟨.ok snakeAliasResult⟩ rfl (by decide) rfl).2.2.1⟩

/-- C2 counterexample: in the Pending state, when the wait handle confirms
within the poll, the handler answers `{loggedIn:true}` but stores the *main*
client's saved session (`"MAINSAVE"`), not the session produced by the
confirmed QR login (`"QRSESS"`, held by the separate QR-login client): the
stored SessionToken differs from the QR login's session. -/
theorem C2_counterexample :
    (runQrStatus qrPendingState qrConfirmEnv).loggedIn = some true ∧
    (runQrStatus qrPendingState qrConfirmEnv).state.sessionString = qrConfirmEnv.saveResult ∧
    (runQrStatus qrPendingState qrConfirmEnv).state.sessionString ≠ qrConfirmEnv.qrSession := by
  decide

/-- C2 (amended): for a qr/status call in the Pending state, if the wait
handle confirms within the bounded poll then — provided the main
ClientHandle exists, or its lazy creation from the remembered
apiId/apiHash (with an empty initial session) succeeds — the stored
SessionToken is set to the session saved from the *main* ClientHandle (not
the QR-login client's session) and `{loggedIn:true}` is returned, with the
attempt still recorded in `qrWaiter`; on timeout, on any wait failure, or
when the lazy creation throws, `{loggedIn:false}` is returned and the state
is unchanged (the attempt remains Pending). -/
theorem C2_qr_status (st : ServerState) (w : QrObj) (env : QrStatusEnv)
    (hw : st.qrWaiter = some w) :
    (∀ c, env.raceOutcome = .ok () → st.client = some c →
       (runQrStatus st env).loggedIn = some true ∧
       (runQrStatus st env).state.sessionString = env.saveResult ∧
       (runQrStatus st env).state.client = st.client ∧
       (runQrStatus st env).state.qrWaiter = some w) ∧
    (env.raceOutcome = .ok () → st.client = none → env.connect = .ok () →
       (runQrStatus st env).loggedIn = some true ∧
       (runQrStatus st env).state.client =
         some (createClient (st.storedApiId.getD 0) st.storedApiHash "") ∧
       (runQrStatus st env).state.sessionString = env.saveResult ∧
       (runQrStatus st env).state.qrWaiter = some w) ∧
    (∀ e, env.raceOutcome = .error e →
       (runQrStatus st env).loggedIn = some false ∧ (runQrStatus st env).state = st) ∧
    (∀ e, env.raceOutcome = .ok () → st.client = none → env.connect = .error e →
       (runQrStatus st env).loggedIn = some false ∧ (runQrStatus st env).state = st) := by
  refine ⟨fun c hr hc => ?_, fun hr hc hcn => ?_, fun e hr => ?_, fun e hr hc hcn => ?_⟩
  · simp [runQrStatus, hw, hr, hc]
  · simp [runQrStatus, hw, hr, hc, hcn]
  · simp [runQrStatus, hw, hr]
  · simp [runQrStatus, hw, hr, hc, hcn]

/-- Witness for the amended C2: confirmation with the main client present
stores that client's saved session and answers `loggedIn:true`. -/
theorem C2_qr_status_witness :
    (runQrStatus qrPendingState qrConfirmEnv).loggedIn = some true ∧
    (runQrStatus qrPendingState qrConfirmEnv).state.sessionString = qrConfirmEnv.saveResult ∧
    (runQrStatus qrPendingState qrConfirmEnv).state.client = qrPendingState.client ∧
    (runQrStatus qrPendingState qrConfirmEnv).state.qrWaiter = some ⟨[77, 1, 2]⟩ :=
  (C2_qr_status qrPendingState ⟨[77, 1, 2]⟩ qrConfirmEnv rfl).1
    (createClient 1 (some "hash1") "") rfl rfl

/-- C8: a qr/start call with both credentials present and a successful
connection returns the distinct 501 status (not the generic 500) when the
fresh client lacks the QR-login capability; when the capability exists and
the QR request succeeds it returns 200, `{ok:true}`, with `qrData` equal to
`data:text/plain;base64,` followed by the base64-encoded login token, and
the attempt becomes Pending (`qrWaiter` holds the token). -/
theorem C8_qr_start (st : ServerState) (apiId : Option Int) (apiHash : Option String)
    (env : QrStartEnv)
    (hid : jsTruthyInt apiId = true) (hhash : jsTruthyStr apiHash = true)
    (hconn : env.connect = .ok ()) :
    (env.hasQrLogin = false →
       (runQrStart st apiId apiHash env).status = 501 ∧
       (runQrStart st apiId apiHash env).status ≠ 500 ∧
       (runQrStart st apiId apiHash env).error =
         some "QR login not supported by library version on server" ∧
       (runQrStart st apiId apiHash env).state.qrWaiter = st.qrWaiter) ∧
    (∀ tok, env.hasQrLogin = true → env.qrLogin = .ok tok →
       (runQrStart st apiId apiHash env).status = 200 ∧
       (runQrStart st apiId apiHash env).ok = true ∧
       (runQrStart st apiId apiHash env).qrData =
         some ("data:text/plain;base64," ++ base64Encode tok) ∧
       (runQrStart st apiId apiHash env).state.qrWaiter = some ⟨tok⟩) := by
  refine ⟨fun hq => ?_, fun tok hq hl => ?_⟩
  · simp [runQrStart, hid, hhash, hconn, hq]
  · simp [runQrStart, hid, hhash, hconn, hq, hl]

/-- Witness for C8: a successful qr/start on the token bytes `[77, 1, 2]`
(base64 `TQEC`). -/
theorem C8_qr_start_witness :
    (runQrStart startedState (some 1) (some "hash1") ⟨.ok (), true, .ok [77, 1, 2]⟩).status = 200 ∧
    (runQrStart startedState (some 1) (some "hash1") ⟨.ok (), true, .ok [77, 1, 2]⟩).ok = true ∧
    (runQrStart startedState (some 1) (some "hash1") ⟨.ok (), true, .ok [77, 1, 2]⟩).qrData =
      some ("data:text/plain;base64," ++ base64Encode [77, 1, 2]) ∧
    (runQrStart startedState (some 1) (some "hash1")
       ⟨.ok (), true, .ok [77, 1, 2]⟩).state.qrWaiter = some ⟨[77, 1, 2]⟩ :=
  (C8_qr_start startedState (some 1) (some "hash1") ⟨.ok (), true, .ok [77, 1, 2]⟩
    (by decide) (by decide) rfl).2 [77, 1, 2] rfl rfl

/-- C9: with an initialized client, the channels response is exactly the
dialogs whose channel flag is true, in the external order, each mapped to
the decimal string of its identifier and its title; the filtered list is a
sublist of the dialogs, and every response entry comes from a
channel-flagged dialog. -/
theorem C9_channels (st : ServerState) (c : Client) (env : ChannelsEnv) (ds : List Dialog)
    (hc : st.client = some c) (henv : env.getDialogs = .ok ds) :
    (runChannels st env).status = 200 ∧
    (runChannels st env).channels =
      (ds.filter (·.isChannel)).map (fun d => ⟨toString d.id, d.title⟩) ∧
    List.Sublist (ds.filter (·.isChannel)) ds ∧
    (∀ x ∈ (runChannels st env).channels,
       ∃ d ∈ ds, d.isChannel = true ∧ x.id = toString d.id ∧ x.title = d.title) := by
  have hch : (runChannels st env).channels =
      (ds.filter (·.isChannel)).map (fun d => ⟨toString d.id, d.title⟩) := by
    simp [runChannels, hc, henv]
  refine ⟨by simp [runChannels, hc, henv], hch, List.filter_sublist ds, ?_⟩
  intro x hx
  rw [hch] at hx
  obtain ⟨d, hd, rfl⟩ := List.mem_map.mp hx
  obtain ⟨hd1, hd2⟩ := List.mem_filter.mp hd
  exact ⟨d, hd1, by simpa using hd2, rfl, rfl⟩

/-- Witness for C9: the two channel dialogs of `threeDialogs` survive, with
the big negative identifier rendered in decimal, and the non-channel dialog
dropped. -/
theorem C9_channels_witness :
    (runChannels startedState ⟨.ok threeDialogs⟩).status = 200 ∧
    (runChannels startedState ⟨.ok threeDialogs⟩).channels =
      [⟨"-1001234567890123", "Chan A"⟩, ⟨"7", "Chan C"⟩] := by
  have h := C9_channels startedState (createClient 1 (some "hash1") "")
    ⟨.ok threeDialogs⟩ threeDialogs rfl rfl
  exact ⟨h.1, h.2.1.trans (by decide)⟩

/-- Characterization of the `/send` per-file loop when the file at relative
position `k` fails in both call shapes while every earlier file goes
through in one of the two shapes: the loop unlinks exactly the first `k+1`
temporary paths in order, attempts `sendFile` exactly for the first `k+1`
files, attempts the `sendMessage` fallback only within the first `k+1`
files, and escapes with the second failure. -/
theorem sendLoop_abort (env : SendEnv) (files : List UploadedFile) :
    ∀ (i k : Nat) (e1 e2 : String),
      k < files.length →
      env.sendFile (i + k) = .error e1 →
      env.sendMessage (i + k) = .error e2 →
      (∀ j, j < k → env.sendFile (i + j) = .ok () ∨ env.sendMessage (i + j) = .ok ()) →
      (sendLoop env i files).1 = (files.take (k + 1)).map (·.path) ∧
      (∀ m, m ∈ (sendLoop env i files).2.1 ↔ ∃ j, j ≤ k ∧ m = i + j) ∧
      (∀ m, m ∈ (sendLoop env i files).2.2.1 → ∃ j, j ≤ k ∧ m = i + j) ∧
      (sendLoop env i files).2.2.2 = some e2 := by
  induction files with
  | nil =>
    intro i k e1 e2 hk
    exact absurd hk (by simp)
  | cons f rest ih =>
    intro i k e1 e2 hk hf hm hok
    cases k with
    | zero =>
      rw [Nat.add_zero] at hf hm
      refine ⟨by simp [sendLoop, hf, hm], ?_, ?_, by simp [sendLoop, hf, hm]⟩
      · intro m
        simp only [sendLoop, hf, hm, List.mem_singleton]
        constructor
        · rintro rfl
          exact ⟨0, Nat.le_refl 0, by omega⟩
        · rintro ⟨j, hj, rfl⟩
          omega
      · intro m hmem
        simp only [sendLoop, hf, hm, List.mem_singleton] at hmem
        subst hmem
        exact ⟨0, Nat.le_refl 0, by omega⟩
    | succ k0 =>
      have hk0 : k0 < rest.length := by simpa using Nat.lt_of_succ_lt_succ hk
      have hf2 : env.sendFile (i + 1 + k0) = .error e1 := by
        have harith : i + 1 + k0 = i + (k0 + 1) := by omega
        rw [harith]
        exact hf
      have hm2 : env.sendMessage (i + 1 + k0) = .error e2 := by
        have harith : i + 1 + k0 = i + (k0 + 1) := by omega
        rw [harith]
        exact hm
      have hok2 : ∀ j, j < k0 →
          env.sendFile (i + 1 + j) = .ok () ∨ env.sendMessage (i + 1 + j) = .ok () := by
        intro j hj
        have := hok (j + 1) (by omega)
        rwa [show i + (j + 1) = i + 1 + j by omega] at this
      obtain ⟨ihd, ihfa, ihma, ihe⟩ := ih (i + 1) k0 e1 e2 hk0 hf2 hm2 hok2
      have h0 := hok 0 (Nat.succ_pos k0)
      rw [Nat.add_zero] at h0
      rcases hsf : env.sendFile i with s | u
      · -- sendFile threw for the head file: the fallback must have succeeded
        have hsm : env.sendMessage i = .ok () := by
          rcases h0 with h0 | h0
          · rw [hsf] at h0
            exact absurd h0 (by simp)
          · exact h0
        refine ⟨?_, ?_, ?_, ?_⟩
        · simp only [sendLoop, hsf, hsm, List.take_succ_cons, List.map_cons]
          exact congrArg (f.path :: ·) ihd
        · intro m
          simp only [sendLoop, hsf, hsm, List.mem_cons]
          constructor
          · rintro (rfl | hmem)
            · exact ⟨0, by omega, by omega⟩
            · obtain ⟨j, hj, rfl⟩ := (ihfa m).mp hmem
              exact ⟨j + 1, by omega, by omega⟩
          · rintro ⟨j, hj, rfl⟩
            cases j with
            | zero => exact Or.inl (by omega)
            | succ j0 => exact Or.inr ((ihfa _).mpr ⟨j0, by omega, by omega⟩)
        · intro m hmem
          simp only [sendLoop, hsf, hsm, List.mem_cons] at hmem
          rcases hmem with rfl | hmem
          · exact ⟨0, by omega, by omega⟩
          · obtain ⟨j, hj, rfl⟩ := ihma m hmem
            exact ⟨j + 1, by omega, by omega⟩
        · simp only [sendLoop, hsf, hsm]
          exact ihe
      · -- sendFile succeeded for the head file
        refine ⟨?_, ?_, ?_, ?_⟩
        · simp only [sendLoop, hsf, List.take_succ_cons, List.map_cons]
          exact congrArg (f.path :: ·) ihd
        · intro m
          simp only [sendLoop, hsf, List.mem_cons]
          constructor
          · rintro (rfl | hmem)
            · exact ⟨0, by omega, by omega⟩
            · obtain ⟨j, hj, rfl⟩ := (ihfa m).mp hmem
              exact ⟨j + 1, by omega, by omega⟩
          · rintro ⟨j, hj, rfl⟩
            cases j with
            | zero => exact Or.inl (by omega)
            | succ j0 => exact Or.inr ((ihfa _).mpr ⟨j0, by omega, by omega⟩)
        · intro m hmem
          simp only [sendLoop, hsf] at hmem
          obtain ⟨j, hj, rfl⟩ := ihma m hmem
          exact ⟨j + 1, by omega, by omega⟩
        · simp only [sendLoop, hsf]
          exact ihe

/-- C3: for a send call over a sequence of files in which the file at index
`k` fails in both the file-attachment and the fallback message shapes while
every earlier file goes through in one of the two shapes: every file up to
and including `k` has its temporary storage deleted regardless of its send
outcome (the deleted paths are exactly those of the first `k+1` files, the
failing file included), no later file is attempted in either shape or
deleted, and the call returns a 500 error instead of `{status:"sent"}`. -/
theorem C3_send_cleanup (st : ServerState) (c : Client) (cid : Option String)
    (files : List UploadedFile) (env : SendEnv) (k : Nat) (e1 e2 : String)
    (hc : st.client = some c) (hcid : jsTruthyStr cid = true)
    (hk : k < files.length)
    (hf : env.sendFile k = .error e1) (hm : env.sendMessage k = .error e2)
    (hok : ∀ j, j < k → env.sendFile j = .ok () ∨ env.sendMessage j = .ok ()) :
    (runSend st cid files env).status = 500 ∧
    (runSend st cid files env).sent = false ∧
    (runSend st cid files env).error = some e2 ∧
    (runSend st cid files env).deleted = (files.take (k + 1)).map (·.path) ∧
    (files.get ⟨k, hk⟩).path ∈ (runSend st cid files env).deleted ∧
    (∀ m, m ∈ (runSend st cid files env).fileAttempts ↔ m ≤ k) ∧
    (∀ m, m ∈ (runSend st cid files env).msgAttempts → m ≤ k) := by
  obtain ⟨hd, hfa, hma, he⟩ := sendLoop_abort env files 0 k e1 e2 hk
    (by simpa using hf) (by simpa using hm) (fun j hj => by simpa using hok j hj)
  have hget : (files.get ⟨k, hk⟩).path ∈ (files.take (k + 1)).map (·.path) := by
    refine List.mem_map.mpr ⟨files.get ⟨k, hk⟩, ?_, rfl⟩
    rw [List.take_succ]
    exact List.mem_append.mpr (Or.inr (by simp [List.get?_eq_get hk]))
  rcases hsl : sendLoop env 0 files with ⟨d, fa, ma, err⟩
  rw [hsl] at hd hfa hma he
  simp only at hd hfa hma he
  subst he
  have hrun : runSend st cid files env = ⟨500, false, some e2, d, fa, ma⟩ := by
    simp [runSend, hc, hcid, hsl]
  rw [hrun]
  refine ⟨rfl, rfl, rfl, hd, by rw [hd]; exact hget, ?_, ?_⟩
  · intro m
    rw [hfa m]
    constructor
    · rintro ⟨j, hj, rfl⟩
      omega
    · intro hmk
      exact ⟨m, hmk, by omega⟩
  · intro m hmem
    obtain ⟨j, hj, rfl⟩ := hma m hmem
    omega

/-- Witness for C3: three uploads, file 1 failing in both shapes — files 0
and 1 are unlinked, file 2 is untouched, and the call is a 500 with the
fallback's error. -/
theorem C3_send_cleanup_witness :
    (runSend startedState (some "chan") threeFiles abortAt1Env).status = 500 ∧
    (runSend startedState (some "chan") threeFiles abortAt1Env).error =
      some "sendMessage failed" ∧
    (runSend startedState (some "chan") threeFiles abortAt1Env).deleted =
      ["/tmp/u0", "/tmp/u1"] := by
  have h := C3_send_cleanup startedState (createClient 1 (some "hash1") "") (some "chan")
    threeFiles abortAt1Env 1 "sendFile failed" "sendMessage failed"
    rfl (by decide) (by decide) rfl rfl
    (fun j hj => by
      have hj0 : j = 0 := Nat.lt_one_iff.mp hj
      subst hj0
      exact Or.inl rfl)
  exact ⟨h.1, h.2.2.1, h.2.2.2.1.trans (by decide)⟩
